import Mathlib

/-!
Shallow embedding of the Vercel serverless handler `src/api/coze.js`
(repository `vercel-coze-proxy`) and proofs about it.

The handler is a single async function `module.exports = async (req, res)`.
We embed it as a pure function from the environment, the inbound request
and the upstream behaviour to the observable outcome: status code, response
headers in the order they are set, response body, and the list of upstream
chat calls made (with their arguments).

JavaScript numbers are modelled as integers (no claim depends on float
behaviour); JSON values carry object fields in insertion order, as
`JSON.stringify` serializes them.
-/

/-- A JSON value as handled by the JS code (`req.body` fields, SDK chunks).
Object field order is kept, matching JS insertion order. -/
inductive JValue where
  | null : JValue
  | bool (b : Bool) : JValue
  | num (n : Int) : JValue
  | str (s : String) : JValue
  | arr (xs : List JValue) : JValue
  | obj (fields : List (String × JValue)) : JValue

/-- JS truthiness of a JSON value (`!v` in the source negates this).
`num 0`, `str ""`, `null`, `false` are falsy; arrays and objects truthy. -/
def truthy : JValue → Bool
  | .null => false
  | .bool b => b
  | .num n => n != 0
  | .str s => s != ""
  | .arr _ => true
  | .obj _ => true

/-- Truthiness of a possibly-absent field (`undefined` is falsy). -/
def optTruthy : Option JValue → Bool
  | none => false
  | some v => truthy v

/-- `Array.isArray` on a possibly-absent field. -/
def optIsArray : Option JValue → Bool
  | some (.arr _) => true
  | _ => false

/-- JSON string escaping as performed by `JSON.stringify` on the common
escapes (quote, backslash, and control characters used here). -/
def escapeChar (c : Char) : String :=
  if c = '"' then "\\\""
  else if c = '\\' then "\\\\"
  else if c = '\n' then "\\n"
  else if c = '\r' then "\\r"
  else if c = '\t' then "\\t"
  else String.singleton c

/-- Escape every character of a string for JSON output. -/
def escapeString (s : String) : String :=
  String.join (s.data.map escapeChar)

mutual
/-- `JSON.stringify` on the embedded JSON values. -/
def stringify : JValue → String
  | .null => "null"
  | .bool b => cond b "true" "false"
  | .num n => toString n
  | .str s => "\"" ++ escapeString s ++ "\""
  | .arr xs => "[" ++ stringifyArr xs ++ "]"
  | .obj fs => "\x7b" ++ stringifyFields fs ++ "\x7d"

/-- Comma-separated serialization of an array's elements. -/
def stringifyArr : List JValue → String
  | [] => ""
  | [x] => stringify x
  | x :: y :: xs => stringify x ++ "," ++ stringifyArr (y :: xs)

/-- Comma-separated serialization of an object's fields, in order. -/
def stringifyFields : List (String × JValue) → String
  | [] => ""
  | [(k, v)] => "\"" ++ escapeString k ++ "\":" ++ stringify v
  | (k, v) :: f :: fs =>
      "\"" ++ escapeString k ++ "\":" ++ stringify v ++ "," ++ stringifyFields (f :: fs)
end

/-- UTF-8 encoding of one character, as a list of byte values
(what `Buffer.from(string)` produces per character). -/
def utf8EncodeChar (c : Char) : List Nat :=
  if c.toNat < 0x80 then [c.toNat]
  else if c.toNat < 0x800 then [0xC0 + c.toNat / 64, 0x80 + c.toNat % 64]
  else if c.toNat < 0x10000 then
    [0xE0 + c.toNat / 4096, 0x80 + (c.toNat / 64) % 64, 0x80 + c.toNat % 64]
  else
    [0xF0 + c.toNat / 262144, 0x80 + (c.toNat / 4096) % 64, 0x80 + (c.toNat / 64) % 64,
     0x80 + c.toNat % 64]

/-- The UTF-8 bytes of a string: `Buffer.from(String(x))` in the source. -/
def strBytes (s : String) : List Nat :=
  s.data.flatMap utf8EncodeChar

/-- Is a byte a UTF-8 continuation byte (`10xxxxxx`)? -/
def isCont (b : Nat) : Bool :=
  0x80 ≤ b && b < 0xC0

/-- Lossy UTF-8 decoding of a byte list to characters, modelling
`Buffer.toString('utf-8')` / `TextDecoder`: well-formed sequences decode to
their scalar value, malformed bytes become U+FFFD. -/
def utf8DecodeList : List Nat → List Char
  | [] => []
  | b :: rest =>
    if b < 0x80 then Char.ofNat b :: utf8DecodeList rest
    else if b < 0xC0 then '�' :: utf8DecodeList rest
    else if b < 0xE0 then
      match rest with
      | c1 :: r2 =>
        if isCont c1 then Char.ofNat ((b - 0xC0) * 64 + (c1 - 0x80)) :: utf8DecodeList r2
        else '�' :: utf8DecodeList (c1 :: r2)
      | [] => ['�']
    else if b < 0xF0 then
      match rest with
      | c1 :: c2 :: r3 =>
        if isCont c1 && isCont c2 then
          Char.ofNat ((b - 0xE0) * 4096 + (c1 - 0x80) * 64 + (c2 - 0x80)) :: utf8DecodeList r3
        else '�' :: utf8DecodeList (c1 :: c2 :: r3)
      | _ => ['�']
    else
      match rest with
      | c1 :: c2 :: c3 :: r4 =>
        if isCont c1 && isCont c2 && isCont c3 then
          Char.ofNat ((b - 0xF0) * 262144 + (c1 - 0x80) * 4096 + (c2 - 0x80) * 64 + (c3 - 0x80))
            :: utf8DecodeList r4
        else '�' :: utf8DecodeList (c1 :: c2 :: c3 :: r4)
      | _ => ['�']
termination_by l => l.length
decreasing_by all_goals (simp [List.length_cons]; try omega)

/-- UTF-8 decoding of a byte list to a string. -/
def utf8Decode (bs : List Nat) : String :=
  String.mk (utf8DecodeList bs)

/-- The process environment variables read by `api/coze.js`. -/
structure Env where
  COZE_BASE_URL : Option String
  APP_SHARED_SECRET : Option String
  ALLOWED_ORIGINS : Option String
  COZE_API_KEY : Option String

/-- The JSON request body fields destructured by the handler
(absent field = `undefined`). -/
structure Body where
  bot_id : Option JValue
  user_id : Option JValue
  additional_messages : Option JValue
  conversation_id : Option JValue
  stream : Option JValue

/-- The empty body `{}` used when `req.body` is undefined. -/
def emptyBody : Body :=
  ⟨none, none, none, none, none⟩

/-- The inbound HTTP request, with the headers the handler reads. -/
structure Req where
  method : String
  origin : Option String
  xAppAuth : Option String
  xDebug : Option String
  body : Option Body

/-- `DEBUG(req)`: `String(req.headers['x-debug'] || '') === '1'`. -/
def DEBUG (req : Req) : Bool :=
  (req.xDebug.getD "") == "1"

/-- `getAllowedOrigins()`: split `ALLOWED_ORIGINS` on commas, trim each
entry, drop empty entries. -/
def getAllowedOrigins (env : Env) : List String :=
  (((env.ALLOWED_ORIGINS.getD "").splitOn ",").map String.trim).filter
    (fun s => s != "")

/-- The `Access-Control-Allow-Origin` value computed by `setCors`:
`allowed.length === 0 ? '*' : (reqOrigin && allowed.includes(reqOrigin) ?
reqOrigin : allowed[0])`, then `origin || '*'`. -/
def corsOrigin (env : Env) (reqOrigin : Option String) : String :=
  let allowed := getAllowedOrigins env
  let origin :=
    if allowed.length = 0 then "*"
    else
      match reqOrigin with
      | some o => if o != "" && allowed.contains o then o else allowed.headD ""
      | none => allowed.headD ""
  if origin = "" then "*" else origin

/-- All response headers set by `setCors`, in the order they are set. -/
def corsHeaders (env : Env) (reqOrigin : Option String) : List (String × String) :=
  [("Access-Control-Allow-Origin", corsOrigin env reqOrigin),
   ("Vary", "Origin"),
   ("Access-Control-Allow-Methods", "POST, OPTIONS"),
   ("Access-Control-Allow-Headers", "Content-Type, X-App-Auth"),
   ("Access-Control-Max-Age", "86400")]

/-- Modelled from the spec and the Node documentation of
`crypto.timingSafeEqual` (external to this repository): the classic
constant-time fold, accumulating the OR of the byte XORs while counting the
byte operations performed. Returns `(accumulated difference, byte ops)`;
for equal-length inputs the accumulator is zero iff the inputs are equal,
and the operation count depends only on the length. -/
def ctEq : List Nat → List Nat → Nat × Nat
  | [], [] => (0, 0)
  | x :: xs, y :: ys =>
    let r := ctEq xs ys
    ((x ^^^ y) ||| r.1, r.2 + 1)
  | _, _ => (1, 0)

/-- Outcome of `verifyAppAuth`, together with the number of byte
comparisons performed (the timing-relevant work). -/
structure AuthResult where
  ok : Bool
  comparisons : Nat

/-- `verifyAppAuth(req)`: skip when no (truthy) secret is configured;
reject a missing/empty header; reject on byte-length mismatch before any
byte comparison; otherwise compare all bytes in constant time. -/
def verifyAppAuth (env : Env) (xAppAuth : Option String) : AuthResult :=
  match env.APP_SHARED_SECRET with
  | none => ⟨true, 0⟩
  | some secret =>
    if secret = "" then ⟨true, 0⟩
    else
      match xAppAuth with
      | none => ⟨false, 0⟩
      | some hdr =>
        if hdr = "" then ⟨false, 0⟩
        else
          let a := strBytes hdr
          let b := strBytes secret
          if a.length ≠ b.length then ⟨false, 0⟩
          else ⟨(ctEq a b).1 == 0, (ctEq a b).2⟩

/-- The argument object passed to `api.chat.stream(...)`:
`conversation_id` is spread in only when truthy. -/
structure ChatArgs where
  bot_id : JValue
  user_id : JValue
  additional_messages : JValue
  conversation_id : Option JValue

/-- One value produced by a pull-based reader (`reader.read().value`):
the source handles both already-text values and byte chunks. -/
inductive ReadChunk where
  | strVal (s : String) : ReadChunk
  | bytes (bs : List Nat) : ReadChunk

/-- The shape of what `await api.chat.stream(...)` settles to: an
async-iterable of chunk objects, a Web `ReadableStream` (pull reader), an
unrecognized value, or a rejection carrying `String(e?.message || e)`. -/
inductive Upstream where
  | iter (chunks : List JValue) : Upstream
  | reader (chunks : List ReadChunk) : Upstream
  | other : Upstream
  | failure (msg : String) : Upstream

/-- Response body: empty (`res.end()` with no writes / 204), a JSON
document (`res.json(...)`), or the concatenation of the SSE writes. -/
inductive RespBody where
  | empty : RespBody
  | json (v : JValue) : RespBody
  | sse (s : String) : RespBody

/-- Observable outcome of one handler invocation: status, response headers
in the order set, body, and the upstream chat calls made. -/
structure HandlerResult where
  status : Nat
  headers : List (String × String)
  body : RespBody
  calls : List ChatArgs

/-- `COZE_API_KEY` after the JS truthiness test `if (!token)`. -/
def tokenOf (env : Env) : Option String :=
  match env.COZE_API_KEY with
  | none => none
  | some t => if t = "" then none else some t

/-- The missing/ill-typed required-fields test
`!bot_id || !user_id || !Array.isArray(additional_messages)`. -/
def missingFields (b : Body) : Bool :=
  !optTruthy b.bot_id || !optTruthy b.user_id || !optIsArray b.additional_messages

/-- The 400 error message for missing required fields. -/
def missingMsg : String :=
  "Missing required fields: bot_id, user_id, additional_messages[]"

/-- The effective `stream` flag: destructuring default `stream = true`
applies only when the field is absent; then JS truthiness decides. -/
def streamFlagOf (b : Body) : Bool :=
  truthy (b.stream.getD (.bool true))

/-- Build the `api.chat.stream` argument object from the body (both
branches of the source construct exactly this object). -/
def mkChatArgs (b : Body) : ChatArgs :=
  ⟨b.bot_id.getD .null, b.user_id.getD .null, b.additional_messages.getD .null,
   match b.conversation_id with
   | some v => if truthy v then some v else none
   | none => none⟩

/-- The SSE headers set in the streaming branch, in order. -/
def sseHeadersList : List (String × String) :=
  [("Content-Type", "text/event-stream; charset=utf-8"),
   ("Cache-Control", "no-cache, no-transform"),
   ("Connection", "keep-alive")]

/-- SSE body written for an async-iterable upstream: one `data:` event per
JSON-serialized chunk, then the terminal `data: [DONE]` event. -/
def sseBody : List JValue → String
  | [] => "data: [DONE]\n\n"
  | c :: rest => "data: " ++ stringify c ++ "\n\n" ++ sseBody rest

/-- Text of one reader chunk in the streaming branch:
`typeof value === 'string' ? value : Buffer.from(value).toString('utf-8')`. -/
def chunkText : ReadChunk → String
  | .strVal s => s
  | .bytes bs => utf8Decode bs

/-- SSE body written for a pull-reader upstream: one `data:` event per
decoded chunk, then the terminal event. -/
def sseReaderBody : List ReadChunk → String
  | [] => "data: [DONE]\n\n"
  | c :: rest => "data: " ++ chunkText c ++ "\n\n" ++ sseReaderBody rest

/-- SSE body of the defensive fallback for an unrecognized upstream shape. -/
def noticeBody : String :=
  "data: " ++ stringify (.obj [("notice", .str "unknown stream payload")]) ++ "\n\n"
    ++ "data: [DONE]\n\n"

/-- All bytes pulled from a reader in the buffering branch. The branch
feeds every chunk to `TextDecoder.decode`, which accepts only byte input;
an already-text chunk makes it throw (`none`), caught by the outer
try/catch. -/
def readerBytes : List ReadChunk → Option (List Nat)
  | [] => some []
  | .bytes bs :: rest => (readerBytes rest).map (fun t => bs ++ t)
  | .strVal _ :: _ => none

/-- Modelled from the spec: the runtime `TypeError` message produced when
`TextDecoder.decode` is fed a non-byte value; the exact wording is
runtime-specific and outside this repository. -/
def decodeErrMsg : String :=
  "TypeError: input is not a byte source"

/-- The 502 response of the catch block:
`{ error: 'Coze API call failed', detail: String(e?.message || e) }`. -/
def fail502 (cors : List (String × String)) (msg : String) (args : ChatArgs) : HandlerResult :=
  ⟨502, cors, .json (.obj [("error", .str "Coze API call failed"), ("detail", .str msg)]),
   [args]⟩

/-- The `{ ok: true, chunks: ... }` JSON document of the buffering branch. -/
def okChunks (v : JValue) : JValue :=
  .obj [("ok", .bool true), ("chunks", v)]

/-- The handler `module.exports = async (req, res)` of `api/coze.js`,
embedded as a pure function of the environment, the request, and the
upstream behaviour (what `api.chat.stream` settles to per argument
object). Console logging (the only use of the debug flag) has no effect on
the response and is not represented. -/
def handler (env : Env) (req : Req) (up : ChatArgs → Upstream) : HandlerResult :=
  let cors := corsHeaders env req.origin
  if req.method = "OPTIONS" then ⟨204, cors, .empty, []⟩
  else if req.method ≠ "POST" then
    ⟨405, cors, .json (.obj [("error", .str "Method Not Allowed")]), []⟩
  else if !(verifyAppAuth env req.xAppAuth).ok then
    ⟨401, cors, .json (.obj [("error", .str "Unauthorized")]), []⟩
  else
    let b := req.body.getD emptyBody
    if missingFields b then ⟨400, cors, .json (.obj [("error", .str missingMsg)]), []⟩
    else
      match tokenOf env with
      | none => ⟨500, cors, .json (.obj [("error", .str "COZE_API_KEY is not configured")]), []⟩
      | some _ =>
        if streamFlagOf b then
          match up (mkChatArgs b) with
          | .failure msg => fail502 cors msg (mkChatArgs b)
          | .iter chunks =>
            ⟨200, cors ++ sseHeadersList, .sse (sseBody chunks), [mkChatArgs b]⟩
          | .reader cs =>
            ⟨200, cors ++ sseHeadersList, .sse (sseReaderBody cs), [mkChatArgs b]⟩
          | .other => ⟨200, cors ++ sseHeadersList, .sse noticeBody, [mkChatArgs b]⟩
        else
          match up (mkChatArgs b) with
          | .failure msg => fail502 cors msg (mkChatArgs b)
          | .iter chunks => ⟨200, cors, .json (okChunks (.arr chunks)), [mkChatArgs b]⟩
          | .reader cs =>
            match readerBytes cs with
            | some bs =>
              ⟨200, cors, .json (okChunks (.arr [.obj [("raw", .str (utf8Decode bs))]])),
               [mkChatArgs b]⟩
            | none => fail502 cors decodeErrMsg (mkChatArgs b)
          | .other => ⟨200, cors, .json (okChunks (.arr [])), [mkChatArgs b]⟩

/-- Sample environment: no secret, no allow-list, API key set. -/
def envOpen : Env := ⟨none, none, none, some "k"⟩

/-- Sample environment: secret `sekret` configured, API key set. -/
def envSecret : Env := ⟨none, some "sekret", none, some "k"⟩

/-- Sample environment: nothing configured at all. -/
def envBare : Env := ⟨none, none, none, none⟩

/-- Sample valid body (stream defaulted). -/
def bodyOK : Body := ⟨some (.str "b"), some (.str "u"), some (.arr []), none, none⟩

/-- Sample valid body with `stream: false`. -/
def bodyBuf : Body := ⟨some (.str "b"), some (.str "u"), some (.arr []), none, some (.bool false)⟩

/-- Sample invalid body: `bot_id` missing. -/
def bodyBad : Body := ⟨none, some (.str "u"), some (.arr []), none, none⟩

/-- Sample POST request with valid body and no extra headers. -/
def reqPost : Req := ⟨"POST", none, none, none, some bodyOK⟩

/-- Sample POST request with `stream: false`. -/
def reqPostBuf : Req := ⟨"POST", none, none, none, some bodyBuf⟩

/-- Sample POST request carrying a wrong shared-secret header. -/
def reqWrongAuth : Req := ⟨"POST", none, some "wrong", none, some bodyOK⟩

/-- Sample POST request with invalid body. -/
def reqBadBody : Req := ⟨"POST", none, none, none, some bodyBad⟩

/-- Sample OPTIONS request. -/
def reqPreflight : Req := ⟨"OPTIONS", none, none, none, none⟩

/-- Sample GET request. -/
def reqGet : Req := ⟨"GET", none, none, none, none⟩

/-- Upstream yielding an async-iterable of two chunks. -/
def upIterAB : ChatArgs → Upstream := fun _ => .iter [.str "A", .str "B"]

/-- Upstream rejecting with message `boom`. -/
def upFailBoom : ChatArgs → Upstream := fun _ => .failure "boom"

/-- Upstream of unrecognized shape. -/
def upOther : ChatArgs → Upstream := fun _ => .other

/-- Upstream returning a pull reader with two byte chunks (`hi`, `!`). -/
def upReaderHi : ChatArgs → Upstream := fun _ => .reader [.bytes [104, 105], .bytes [33]]

/-- A Nat bitwise-or is zero exactly when both sides are zero. -/
theorem natOrEqZero (a b : Nat) : a ||| b = 0 ↔ a = 0 ∧ b = 0 := by
  constructor
  · intro h
    refine ⟨Nat.eq_of_testBit_eq fun i => ?_, Nat.eq_of_testBit_eq fun i => ?_⟩ <;>
    · have hb := congrArg (fun n => n.testBit i) h
      simp only [Nat.testBit_or, Nat.zero_testBit, Bool.or_eq_false_iff] at hb
      simp [hb.1, hb.2, Nat.zero_testBit]
  · rintro ⟨rfl, rfl⟩
    rfl

/-- The constant-time fold performs exactly one byte operation per byte:
its work depends only on the (common) length, never on the contents. -/
theorem ctEq_ops_eq_length :
    ∀ a b : List Nat, a.length = b.length → (ctEq a b).2 = a.length := by
  intro a
  induction a with
  | nil => intro b h; cases b <;> simp_all [ctEq]
  | cons x xs ih =>
    intro b h
    cases b with
    | nil => simp at h
    | cons y ys =>
      simp only [List.length_cons, Nat.add_right_cancel_iff] at h
      simp [ctEq, ih ys h]

/-- For equal-length inputs the fold's accumulator is zero iff the inputs
are equal byte lists. -/
theorem ctEq_acc_zero_iff :
    ∀ a b : List Nat, a.length = b.length → ((ctEq a b).1 = 0 ↔ a = b) := by
  intro a
  induction a with
  | nil => intro b h; cases b <;> simp_all [ctEq]
  | cons x xs ih =>
    intro b h
    cases b with
    | nil => simp at h
    | cons y ys =>
      simp only [List.length_cons, Nat.add_right_cancel_iff] at h
      simp only [ctEq, natOrEqZero, Nat.xor_eq_zero, ih ys h, List.cons.injEq]

/-- UTF-8 encoding of a character is never empty. -/
theorem utf8EncodeChar_ne_nil (c : Char) : utf8EncodeChar c ≠ [] := by
  unfold utf8EncodeChar
  split <;> try split <;> try split
  all_goals simp

/-- UTF-8 is a prefix code: equal encodings followed by arbitrary tails
determine the character and the tails. -/
theorem utf8EncodeChar_append_inj (c d : Char) (r s : List Nat)
    (h : utf8EncodeChar c ++ r = utf8EncodeChar d ++ s) : c = d ∧ r = s := by
  have hc : Char.ofNat c.toNat = c := Char.ofNat_toNat c
  have hd : Char.ofNat d.toNat = d := Char.ofNat_toNat d
  unfold utf8EncodeChar at h
  split_ifs at h <;>
    simp only [List.cons_append, List.nil_append, List.cons.injEq] at h <;>
    [skip; skip; skip; skip; skip; skip; skip; skip; skip; skip; skip; skip;
     skip; skip; skip; skip] <;>
  · first
    | (refine ⟨?_, h.2.2.2.2⟩;
       have : c.toNat = d.toNat := by omega;
       rw [← hc, ← hd, this])
    | (refine ⟨?_, h.2.2.2⟩;
       have : c.toNat = d.toNat := by omega;
       rw [← hc, ← hd, this])
    | (refine ⟨?_, h.2.2⟩;
       have : c.toNat = d.toNat := by omega;
       rw [← hc, ← hd, this])
    | (refine ⟨?_, h.2⟩;
       have : c.toNat = d.toNat := by omega;
       rw [← hc, ← hd, this])
    | omega

/-- Concatenated UTF-8 encodings determine the character list. -/
theorem flatMap_encode_inj :
    ∀ l1 l2 : List Char, l1.flatMap utf8EncodeChar = l2.flatMap utf8EncodeChar → l1 = l2 := by
  intro l1
  induction l1 with
  | nil =>
    intro l2 h
    cases l2 with
    | nil => rfl
    | cons d t =>
      simp only [List.flatMap_nil, List.flatMap_cons] at h
      exact absurd (List.append_eq_nil.mp h.symm).1 (utf8EncodeChar_ne_nil d)
  | cons c t ih =>
    intro l2 h
    cases l2 with
    | nil =>
      simp only [List.flatMap_nil, List.flatMap_cons] at h
      exact absurd (List.append_eq_nil.mp h).1 (utf8EncodeChar_ne_nil c)
    | cons d t2 =>
      simp only [List.flatMap_cons] at h
      obtain ⟨hcd, htails⟩ := utf8EncodeChar_append_inj c d _ _ h
      rw [hcd, ih t2 htails]

/-- Two strings with the same UTF-8 bytes are equal. -/
theorem strBytes_inj {s t : String} (h : strBytes s = strBytes t) : s = t := by
  cases s with
  | mk ds =>
    cases t with
    | mk dt =>
      simp only [strBytes] at h
      exact congrArg String.mk (flatMap_encode_inj ds dt h)

/-- If a (truthy) secret is configured and the auth check succeeds, the
header value equals the secret. -/
theorem verifyAppAuth_ok_imp_eq {env : Env} {secret hdr : String}
    (hs : env.APP_SHARED_SECRET = some secret) (hne : secret ≠ "")
    (hok : (verifyAppAuth env (some hdr)).ok = true) : hdr = secret := by
  unfold verifyAppAuth at hok
  rw [hs] at hok
  simp only [hne, if_false] at hok
  by_cases hh : hdr = ""
  · simp [hh] at hok
  · simp only [hh, if_false] at hok
    by_cases hl : (strBytes hdr).length ≠ (strBytes secret).length
    · simp [hl] at hok
    · push_neg at hl
      simp only [hl, ne_eq, not_true_eq_false, if_false, beq_iff_eq] at hok
      exact strBytes_inj ((ctEq_acc_zero_iff _ _ hl).mp hok)

/-- Every entry of the parsed allow-list is a nonempty string. -/
theorem mem_getAllowedOrigins_ne_empty {env : Env} {s : String}
    (h : s ∈ getAllowedOrigins env) : s ≠ "" := by
  simp only [getAllowedOrigins, List.mem_filter, bne_iff_ne, ne_eq] at h
  exact h.2

/-- `headD` of a nonempty list is a member. -/
theorem headD_mem {α : Type} (l : List α) (d : α) (h : l ≠ []) : l.headD d ∈ l := by
  cases l with
  | nil => exact absurd rfl h
  | cons a t => simp [List.headD]


theorem corsOrigin_spec (env : Env) (o : Option String) :
    corsOrigin env o =
      (if getAllowedOrigins env = [] then "*"
       else
         match o with
         | some og => if og ∈ getAllowedOrigins env then og else (getAllowedOrigins env).headD "*"
         | none => (getAllowedOrigins env).headD "*") := by
  cases hL : getAllowedOrigins env with
  | nil => simp [corsOrigin, hL]
  | cons a l =>
    have hane : a ≠ "" :=
      mem_getAllowedOrigins_ne_empty (by rw [hL]; exact List.mem_cons_self a l)
    cases o with
    | none => simp [corsOrigin, hL, List.headD, hane]
    | some og =>
      by_cases hmem : og ∈ a :: l
      · have hone : og ≠ "" :=
          mem_getAllowedOrigins_ne_empty (by rw [hL]; exact hmem)
        simp [corsOrigin, hL, List.contains, hmem, hone, List.headD, hane]
      · by_cases hoe : og = ""
        · have hnl : ("" : String) ∉ l := fun hm =>
            mem_getAllowedOrigins_ne_empty (by rw [hL]; exact List.mem_cons_of_mem a hm) rfl
          simp [corsOrigin, hL, List.contains, hmem, hoe, List.headD, hane, hnl, Ne.symm hane]
        · simp only [corsOrigin, hL]
          simp [List.contains, hmem, hoe, List.headD, hane]


theorem handler_headers_head (env : Env) (req : Req) (up : ChatArgs → Upstream) :
    (handler env req up).headers.head? =
      some ("Access-Control-Allow-Origin", corsOrigin env req.origin) := by
  unfold handler
  repeat' split
  all_goals
    try simp [corsHeaders, fail502, apply_ite (fun r : HandlerResult => List.head? r.headers)]
  all_goals intro h
  all_goals repeat' split
  all_goals
    simp [corsHeaders, fail502, apply_ite (fun r : HandlerResult => List.head? r.headers)]

/-- C1: for a POST request passing auth and validation with the stream
flag on, an async-iterable upstream yielding chunks `[A, B]` produces
exactly the SSE body `data: <json A>\n\n` then `data: <json B>\n\n` then
`data: [DONE]\n\n`, in order, with status 200 and one upstream call. -/
theorem claim1_stream_async_iterable (env : Env) (req : Req) (b : Body) (A B : JValue)
    (t : String) (up : ChatArgs → Upstream)
    (hm : req.method = "POST") (hb : req.body = some b)
    (ha : (verifyAppAuth env req.xAppAuth).ok = true)
    (hv : missingFields b = false)
    (ht : tokenOf env = some t)
    (hs : streamFlagOf b = true)
    (hup : up (mkChatArgs b) = .iter [A, B]) :
    handler env req up =
      ⟨200, corsHeaders env req.origin ++ sseHeadersList,
       .sse ("data: " ++ stringify A ++ "\n\n" ++
         ("data: " ++ stringify B ++ "\n\n" ++ "data: [DONE]\n\n")),
       [mkChatArgs b]⟩ := by
  unfold handler
  rw [hm, hb]
  simp [ha, hv, ht, hs, hup, sseBody]

/-- C1 witness: the theorem evaluated at a concrete request and upstream. -/
theorem claim1_witness :
    handler envOpen reqPost upIterAB =
      ⟨200, corsHeaders envOpen reqPost.origin ++ sseHeadersList,
       .sse ("data: " ++ stringify (.str "A") ++ "\n\n" ++
         ("data: " ++ stringify (.str "B") ++ "\n\n" ++ "data: [DONE]\n\n")),
       [mkChatArgs bodyOK]⟩ :=
  claim1_stream_async_iterable envOpen reqPost bodyOK (.str "A") (.str "B") "k" upIterAB
    rfl rfl rfl rfl rfl rfl rfl

/-- C5: with the stream flag on, an upstream of unrecognized shape yields
exactly one diagnostic notice event followed by the terminal `[DONE]`
event, completing with status 200 (no error status). -/
theorem claim5_unknown_shape_stream (env : Env) (req : Req) (b : Body)
    (t : String) (up : ChatArgs → Upstream)
    (hm : req.method = "POST") (hb : req.body = some b)
    (ha : (verifyAppAuth env req.xAppAuth).ok = true)
    (hv : missingFields b = false)
    (ht : tokenOf env = some t)
    (hs : streamFlagOf b = true)
    (hup : up (mkChatArgs b) = .other) :
    handler env req up =
      ⟨200, corsHeaders env req.origin ++ sseHeadersList,
       .sse ("data: " ++ stringify (.obj [("notice", .str "unknown stream payload")]) ++ "\n\n"
         ++ "data: [DONE]\n\n"),
       [mkChatArgs b]⟩ := by
  unfold handler
  rw [hm, hb]
  simp [ha, hv, ht, hs, hup, noticeBody]

/-- C5 witness: the theorem evaluated at a concrete request and upstream. -/
theorem claim5_witness :
    handler envOpen reqPost upOther =
      ⟨200, corsHeaders envOpen reqPost.origin ++ sseHeadersList,
       .sse ("data: " ++ stringify (.obj [("notice", .str "unknown stream payload")]) ++ "\n\n"
         ++ "data: [DONE]\n\n"),
       [mkChatArgs bodyOK]⟩ :=
  claim5_unknown_shape_stream envOpen reqPost bodyOK "k" upOther rfl rfl rfl rfl rfl rfl rfl

/-- C10: with the stream flag off, an upstream of unrecognized shape
yields status 200 and the JSON `{ ok: true, chunks: [] }` — no notice
event, no error. -/
theorem claim10_unknown_shape_buffered (env : Env) (req : Req) (b : Body)
    (t : String) (up : ChatArgs → Upstream)
    (hm : req.method = "POST") (hb : req.body = some b)
    (ha : (verifyAppAuth env req.xAppAuth).ok = true)
    (hv : missingFields b = false)
    (ht : tokenOf env = some t)
    (hs : streamFlagOf b = false)
    (hup : up (mkChatArgs b) = .other) :
    handler env req up =
      ⟨200, corsHeaders env req.origin,
       .json (.obj [("ok", .bool true), ("chunks", .arr [])]),
       [mkChatArgs b]⟩ := by
  unfold handler
  rw [hm, hb]
  simp [ha, hv, ht, hs, hup, okChunks]

/-- C10 witness: the theorem evaluated at a concrete request and upstream. -/
theorem claim10_witness :
    handler envOpen reqPostBuf upOther =
      ⟨200, corsHeaders envOpen reqPostBuf.origin,
       .json (.obj [("ok", .bool true), ("chunks", .arr [])]),
       [mkChatArgs bodyBuf]⟩ :=
  claim10_unknown_shape_buffered envOpen reqPostBuf bodyBuf "k" upOther
    rfl rfl rfl rfl rfl rfl rfl

/-- C7: an OPTIONS request is answered 204 with the CORS headers and an
empty body and no upstream call; any method other than POST and OPTIONS
is answered 405 with no upstream call. -/
theorem claim7_methods :
    (∀ env req up, req.method = "OPTIONS" →
      handler env req up = ⟨204, corsHeaders env req.origin, .empty, []⟩) ∧
    (∀ env req up, req.method ≠ "OPTIONS" → req.method ≠ "POST" →
      handler env req up =
        ⟨405, corsHeaders env req.origin,
         .json (.obj [("error", .str "Method Not Allowed")]), []⟩) := by
  constructor
  · intro env req up hm
    unfold handler
    rw [hm]
    simp
  · intro env req up ho hp
    unfold handler
    simp [ho, hp]

/-- C7 witness: both parts applied to concrete OPTIONS and GET requests. -/
theorem claim7_witness :
    handler envOpen reqPreflight upIterAB =
        ⟨204, corsHeaders envOpen reqPreflight.origin, .empty, []⟩ ∧
    handler envOpen reqGet upIterAB =
        ⟨405, corsHeaders envOpen reqGet.origin,
         .json (.obj [("error", .str "Method Not Allowed")]), []⟩ :=
  ⟨claim7_methods.1 envOpen reqPreflight upIterAB rfl,
   claim7_methods.2 envOpen reqGet upIterAB (by decide) (by decide)⟩

/-- C8: on an authenticated POST, a body missing `bot_id` or `user_id` or
whose `additional_messages` is not an array is answered 400 with the
field-level message, with no upstream call and regardless of whether the
API key is configured (validation precedes the key check); a valid body
with no API key configured is answered 500 `COZE_API_KEY is not
configured`. -/
theorem claim8_validation_then_key :
    (∀ env req up b, req.method = "POST" →
      (verifyAppAuth env req.xAppAuth).ok = true →
      req.body = some b →
      (b.bot_id = none ∨ b.user_id = none ∨ optIsArray b.additional_messages = false) →
      handler env req up =
        ⟨400, corsHeaders env req.origin, .json (.obj [("error", .str missingMsg)]), []⟩) ∧
    (∀ env req up b, req.method = "POST" →
      (verifyAppAuth env req.xAppAuth).ok = true →
      req.body = some b →
      missingFields b = false →
      tokenOf env = none →
      handler env req up =
        ⟨500, corsHeaders env req.origin,
         .json (.obj [("error", .str "COZE_API_KEY is not configured")]), []⟩) := by
  constructor
  · intro env req up b hm ha hb hbad
    have hv : missingFields b = true := by
      rcases hbad with h1 | h1 | h1 <;> simp [missingFields, h1, optTruthy]
    unfold handler
    rw [hm, hb]
    simp [ha, hv]
  · intro env req up b hm ha hb hv ht
    unfold handler
    rw [hm, hb]
    simp [ha, hv, ht]

/-- C8 witness: both parts applied to concrete requests: a body with
missing `bot_id` against a keyless environment, and a valid body against
the same keyless environment. -/
theorem claim8_witness :
    handler envBare reqBadBody upIterAB =
        ⟨400, corsHeaders envBare reqBadBody.origin,
         .json (.obj [("error", .str missingMsg)]), []⟩ ∧
    handler envBare reqPost upIterAB =
        ⟨500, corsHeaders envBare reqPost.origin,
         .json (.obj [("error", .str "COZE_API_KEY is not configured")]), []⟩ :=
  ⟨claim8_validation_then_key.1 envBare reqBadBody upIterAB bodyBad rfl rfl rfl (Or.inl rfl),
   claim8_validation_then_key.2 envBare reqPost upIterAB bodyOK rfl rfl rfl rfl rfl⟩

/-- C3 counterexample: a request with no debug header whose upstream call
rejects is answered 502 with a `detail` field present even though debug
mode is off — refuting the claim that the diagnostic field appears
exactly when the debug flag is set. -/
theorem claim3_counterexample :
    DEBUG reqPost = false ∧
    handler envOpen reqPost upFailBoom =
      ⟨502, corsHeaders envOpen reqPost.origin,
       .json (.obj [("error", .str "Coze API call failed"), ("detail", .str "boom")]),
       [mkChatArgs bodyOK]⟩ :=
  ⟨rfl, rfl⟩

/-- C3 (amended): when the upstream call rejects, the response is 502 with
an `error` field and a `detail` field carrying the upstream error message,
unconditionally; the inbound debug header has no effect on any response
(it only toggles server-side logging). -/
theorem claim3_upstream_failure (env : Env) (req : Req) (b : Body)
    (t : String) (up : ChatArgs → Upstream) (msg : String)
    (hm : req.method = "POST") (hb : req.body = some b)
    (ha : (verifyAppAuth env req.xAppAuth).ok = true)
    (hv : missingFields b = false)
    (ht : tokenOf env = some t)
    (hup : up (mkChatArgs b) = .failure msg) :
    handler env req up =
      ⟨502, corsHeaders env req.origin,
       .json (.obj [("error", .str "Coze API call failed"), ("detail", .str msg)]),
       [mkChatArgs b]⟩ ∧
    (∀ d, handler env ⟨req.method, req.origin, req.xAppAuth, d, req.body⟩ up =
      handler env req up) := by
  constructor
  · unfold handler
    rw [hm, hb]
    by_cases hs : streamFlagOf b = true <;> simp [ha, hv, ht, hs, hup, fail502]
  · intro d
    rfl

/-- C3 witness: the amended theorem evaluated at a concrete failing
upstream, checking the 502 body and debug-header independence. -/
theorem claim3_witness :
    handler envOpen reqPost upFailBoom =
      ⟨502, corsHeaders envOpen reqPost.origin,
       .json (.obj [("error", .str "Coze API call failed"), ("detail", .str "boom")]),
       [mkChatArgs bodyOK]⟩ ∧
    handler envOpen ⟨reqPost.method, reqPost.origin, reqPost.xAppAuth, some "1", reqPost.body⟩
        upFailBoom = handler envOpen reqPost upFailBoom :=
  ⟨(claim3_upstream_failure envOpen reqPost bodyOK "k" upFailBoom "boom"
      rfl rfl rfl rfl rfl rfl).1,
   (claim3_upstream_failure envOpen reqPost bodyOK "k" upFailBoom "boom"
      rfl rfl rfl rfl rfl rfl).2 (some "1")⟩

/-- C2: when a (truthy) shared secret is configured, a POST request whose
auth header is absent or differs from the secret is answered 401 with no
upstream call, regardless of the body; when no secret is configured
(absent or empty), authentication never rejects — the check always passes
and no request is answered 401. -/
theorem claim2_shared_secret :
    (∀ env req up secret, env.APP_SHARED_SECRET = some secret → secret ≠ "" →
      req.method = "POST" →
      (req.xAppAuth = none ∨ ∀ h, req.xAppAuth = some h → h ≠ secret) →
      handler env req up =
        ⟨401, corsHeaders env req.origin, .json (.obj [("error", .str "Unauthorized")]), []⟩) ∧
    (∀ env hdr, (env.APP_SHARED_SECRET = none ∨ env.APP_SHARED_SECRET = some "") →
      (verifyAppAuth env hdr).ok = true) ∧
    (∀ env req up, (env.APP_SHARED_SECRET = none ∨ env.APP_SHARED_SECRET = some "") →
      (handler env req up).status ≠ 401) := by
  refine ⟨?_, ?_, ?_⟩
  · intro env req up secret hsec hne hm hbad
    have hok : (verifyAppAuth env req.xAppAuth).ok = false := by
      rcases hbad with hnone | hneq
      · rw [hnone]
        unfold verifyAppAuth
        rw [hsec]
        simp [hne]
      · cases hh : req.xAppAuth with
        | none =>
          unfold verifyAppAuth
          rw [hsec]
          simp [hne]
        | some h =>
          cases hres : (verifyAppAuth env (some h)).ok with
          | false => rfl
          | true => exact absurd (verifyAppAuth_ok_imp_eq hsec hne hres) (hneq h hh)
    unfold handler
    rw [hm]
    simp [hok]
  · intro env hdr hopen
    rcases hopen with h | h <;> simp [verifyAppAuth, h]
  · intro env req up hopen
    have hok : (verifyAppAuth env req.xAppAuth).ok = true := by
      rcases hopen with h | h <;> simp [verifyAppAuth, h]
    unfold handler
    repeat' split
    all_goals try (intro hc)
    all_goals try simp_all [fail502, apply_ite (fun r : HandlerResult => r.status)]
    all_goals try (repeat' split at hc)
    all_goals simp_all

/-- C2 witness: the parts applied to concrete requests — a wrong-header
request against a configured secret gets 401; with no secret configured
the check passes and a full request is not answered 401. -/
theorem claim2_witness :
    handler envSecret reqWrongAuth upIterAB =
        ⟨401, corsHeaders envSecret reqWrongAuth.origin,
         .json (.obj [("error", .str "Unauthorized")]), []⟩ ∧
    (verifyAppAuth envOpen (some "anything")).ok = true ∧
    (handler envOpen reqPost upIterAB).status ≠ 401 :=
  ⟨claim2_shared_secret.1 envSecret reqWrongAuth upIterAB "sekret" rfl (by decide) rfl
      (Or.inr fun h hh => by
        simp only [reqWrongAuth] at hh
        injection hh with hx
        rw [← hx]
        decide),
   claim2_shared_secret.2.1 envOpen (some "anything") (Or.inl rfl),
   claim2_shared_secret.2.2 envOpen reqPost upIterAB (Or.inl rfl)⟩

/-- C9: the shared-secret check rejects any header whose UTF-8 byte length
differs from the secret's while performing zero byte comparisons (the
length check precedes the comparison); the byte-wise comparison performs
exactly one operation per byte — its work depends only on the length,
never on how many prefix bytes match; accordingly, on equal-length inputs
the auth check always performs exactly secret-length comparisons. -/
theorem claim9_constant_time :
    (∀ env secret hdr, env.APP_SHARED_SECRET = some secret → secret ≠ "" → hdr ≠ "" →
      (strBytes hdr).length ≠ (strBytes secret).length →
      verifyAppAuth env (some hdr) = ⟨false, 0⟩) ∧
    (∀ a b : List Nat, a.length = b.length → (ctEq a b).2 = a.length) ∧
    (∀ env secret hdr, env.APP_SHARED_SECRET = some secret → secret ≠ "" → hdr ≠ "" →
      (strBytes hdr).length = (strBytes secret).length →
      (verifyAppAuth env (some hdr)).comparisons = (strBytes secret).length) := by
  refine ⟨?_, ctEq_ops_eq_length, ?_⟩
  · intro env secret hdr hsec hne hh hl
    unfold verifyAppAuth
    rw [hsec]
    simp [hne, hh, hl]
  · intro env secret hdr hsec hne hh hl
    unfold verifyAppAuth
    rw [hsec]
    simp [hne, hh, hl, ctEq_ops_eq_length _ _ hl]

/-- C9 witness: a shorter header is rejected with zero comparisons; the
fold does two operations on two-byte inputs; an equal-length header costs
exactly secret-length comparisons. -/
theorem claim9_witness :
    verifyAppAuth envSecret (some "abc") = ⟨false, 0⟩ ∧
    (ctEq [1, 2] [3, 4]).2 = 2 ∧
    (verifyAppAuth envSecret (some "abcdef")).comparisons = (strBytes "sekret").length :=
  ⟨claim9_constant_time.1 envSecret "sekret" "abc" rfl (by decide) (by decide) (by decide),
   claim9_constant_time.2.1 [1, 2] [3, 4] rfl,
   claim9_constant_time.2.2 envSecret "sekret" "abcdef" rfl (by decide) (by decide) (by decide)⟩

/-- C4: the upstream chat-call arguments do not depend on the `stream`
flag; every valid authenticated POST (with any flag value and any upstream
shape) makes exactly one upstream call with those arguments; with the flag
off, an async-iterable yielding `[A, B]` is answered 200 with
`{ ok: true, chunks: [A, B] }` in order, and a pull-reader's byte chunks
are decoded and concatenated into a single `{ raw: ... }` buffer inside
`chunks`. -/
theorem claim4_buffered_mode :
    (∀ b s, mkChatArgs ⟨b.bot_id, b.user_id, b.additional_messages, b.conversation_id, s⟩ =
      mkChatArgs b) ∧
    (∀ env req b t up, req.method = "POST" →
      (verifyAppAuth env req.xAppAuth).ok = true →
      req.body = some b → missingFields b = false → tokenOf env = some t →
      (handler env req up).calls = [mkChatArgs b]) ∧
    (∀ env req b t up A B, req.method = "POST" →
      (verifyAppAuth env req.xAppAuth).ok = true →
      req.body = some b → missingFields b = false → tokenOf env = some t →
      streamFlagOf b = false → up (mkChatArgs b) = .iter [A, B] →
      handler env req up =
        ⟨200, corsHeaders env req.origin,
         .json (.obj [("ok", .bool true), ("chunks", .arr [A, B])]), [mkChatArgs b]⟩) ∧
    (∀ env req b t up cs bs, req.method = "POST" →
      (verifyAppAuth env req.xAppAuth).ok = true →
      req.body = some b → missingFields b = false → tokenOf env = some t →
      streamFlagOf b = false → up (mkChatArgs b) = .reader cs →
      readerBytes cs = some bs →
      handler env req up =
        ⟨200, corsHeaders env req.origin,
         .json (.obj [("ok", .bool true),
           ("chunks", .arr [.obj [("raw", .str (utf8Decode bs))]])]),
         [mkChatArgs b]⟩) := by
  refine ⟨?_, ?_, ?_, ?_⟩
  · intro b s
    rfl
  · intro env req b t up hm ha hb hv ht
    unfold handler
    rw [hm, hb]
    by_cases hs : streamFlagOf b = true <;>
    cases hup : up (mkChatArgs b) with
    | reader cs =>
      cases hrb : readerBytes cs <;> simp [ha, hv, ht, hs, hup, hrb, fail502]
    | _ => simp [ha, hv, ht, hs, hup, fail502]
  · intro env req b t up A B hm ha hb hv ht hs hup
    unfold handler
    rw [hm, hb]
    simp [ha, hv, ht, hs, hup, okChunks]
  · intro env req b t up cs bs hm ha hb hv ht hs hup hrb
    unfold handler
    rw [hm, hb]
    simp [ha, hv, ht, hs, hup, hrb, okChunks]

/-- C4 witness: the four parts evaluated at concrete inputs — the argument
object ignores the flag; a buffered reader request makes one call; an
iterable upstream buffers `[A, B]`; a reader upstream concatenates its
decoded bytes into one `raw` buffer. -/
theorem claim4_witness :
    mkChatArgs ⟨bodyOK.bot_id, bodyOK.user_id, bodyOK.additional_messages,
        bodyOK.conversation_id, some (.bool false)⟩ = mkChatArgs bodyOK ∧
    (handler envOpen reqPostBuf upReaderHi).calls = [mkChatArgs bodyBuf] ∧
    handler envOpen reqPostBuf upIterAB =
      ⟨200, corsHeaders envOpen reqPostBuf.origin,
       .json (.obj [("ok", .bool true), ("chunks", .arr [.str "A", .str "B"])]),
       [mkChatArgs bodyBuf]⟩ ∧
    handler envOpen reqPostBuf upReaderHi =
      ⟨200, corsHeaders envOpen reqPostBuf.origin,
       .json (.obj [("ok", .bool true),
         ("chunks", .arr [.obj [("raw", .str (utf8Decode [104, 105, 33]))]])]),
       [mkChatArgs bodyBuf]⟩ :=
  ⟨claim4_buffered_mode.1 bodyOK (some (.bool false)),
   claim4_buffered_mode.2.1 envOpen reqPostBuf bodyBuf "k" upReaderHi rfl rfl rfl rfl rfl,
   claim4_buffered_mode.2.2.1 envOpen reqPostBuf bodyBuf "k" upIterAB (.str "A") (.str "B")
     rfl rfl rfl rfl rfl rfl rfl,
   claim4_buffered_mode.2.2.2 envOpen reqPostBuf bodyBuf "k" upReaderHi
     [.bytes [104, 105], .bytes [33]] [104, 105, 33] rfl rfl rfl rfl rfl rfl rfl rfl⟩

/-- C6: on every request the first response header set is
`Access-Control-Allow-Origin`, computed as `*` when the allow-list is
empty, the request origin when that origin is in the allow-list, and the
allow-list's first entry otherwise. -/
theorem claim6_cors_first_header (env : Env) (req : Req) (up : ChatArgs → Upstream) :
    (handler env req up).headers.head? =
      some ("Access-Control-Allow-Origin",
        if getAllowedOrigins env = [] then "*"
        else
          match req.origin with
          | some og =>
            if og ∈ getAllowedOrigins env then og else (getAllowedOrigins env).headD "*"
          | none => (getAllowedOrigins env).headD "*") := by
  rw [handler_headers_head, corsOrigin_spec]
